import Mathlib

/-!
Verification of the LaReQA_Multilingual_QA_System retrieval core and web layer.

The Python sources are shallowly embedded:
* `multilingual_qa_system.py` — `simple_text_similarity`, `search_answers`,
  `add_to_knowledge_base`, `get_statistics`, `load_knowledge_base`, the
  interactive-mode `add` branch, and the sample knowledge base.
* `web_interface.py` — the `/ask` and `/add` route handlers, modelled as pure
  functions from the (global, mutable) knowledge-base state and the parsed JSON
  request body to the new state and the JSON response.

Modelling conventions:
* Python floats are modelled as exact rationals (`ℚ`); the division
  `intersection / union` of two Python ints is the exact rational
  `mkRat intersection union` (the equality with `(↑intersection / ↑union : ℚ)`
  is proved in the theorem for claim C1).
* Python's argumentless `str.split()` splits on runs of whitespace with no
  empty fragments; `str.lower()` maps `Char.toLower` over the characters;
  `str.strip()` drops whitespace from both ends.  All three are modelled by
  structural recursion over the character list of the string.
* A Python call that can raise (`max([])` on an empty list) returns `Option`.
-/

namespace LaReQA

/-- One knowledge-base entry, as built by `_create_sample_knowledge_base` and
`add_to_knowledge_base` in `multilingual_qa_system.py`: the dict keys
`id`, `language`, `question`, `answer`, `category`. -/
structure Record where
  id : Nat
  language : String
  question : String
  answer : String
  category : String
deriving DecidableEq

/-- One element of the list built by `search_answers`: the record's fields plus
the derived `similarity_score` (a Python float, modelled exactly in `ℚ`). -/
structure ScoredResult where
  id : Nat
  question : String
  answer : String
  language : String
  category : String
  similarity_score : ℚ
deriving DecidableEq

/-- Python's argumentless `str.split()` over a character list: split on runs of
whitespace, yielding the non-empty fragments in order (`acc` holds the
characters of the current fragment, reversed). -/
def splitWordsAux : List Char → List Char → List String
  | [], acc => if acc.isEmpty then [] else [String.mk acc.reverse]
  | c :: cs, acc =>
    if c.isWhitespace then
      if acc.isEmpty then splitWordsAux cs []
      else String.mk acc.reverse :: splitWordsAux cs []
    else splitWordsAux cs (c :: acc)

/-- `set(text.lower().split())` from `simple_text_similarity`: the finite set
of unique whitespace-separated tokens of the lower-cased text.  `str.lower()`
is modelled by mapping `Char.toLower` over the characters. -/
def wordSet (text : String) : Finset String :=
  (splitWordsAux (text.toList.map Char.toLower) []).toFinset

/-- `MultilingualQASystem.simple_text_similarity` (lines 122–147):
Jaccard similarity of the two word sets, with the `union == 0` guard
returning `0.0`.  The Python float division `intersection / union` of two
ints is the exact rational `mkRat intersection union`. -/
def simple_text_similarity (text1 text2 : String) : ℚ :=
  let words1 := wordSet text1
  let words2 := wordSet text2
  let intersection := (words1 ∩ words2).card
  let union := (words1 ∪ words2).card
  if union = 0 then 0 else mkRat intersection union

/-- The dict appended to `results` for one knowledge-base item in
`search_answers` (lines 162–177): every record field is copied and
`similarity_score` is the max of the question- and answer-similarities. -/
def scoreEntry (query : String) (item : Record) : ScoredResult :=
  { id := item.id
    question := item.question
    answer := item.answer
    language := item.language
    category := item.category
    similarity_score :=
      max (simple_text_similarity query item.question)
          (simple_text_similarity query item.answer) }

/-- One step of the stable descending sort performed by Python's
`results.sort(key=lambda x: x['similarity_score'], reverse=True)`:
insert `x` (an element preceding `l`'s elements in the unsorted list)
in front of the first element whose score is `≤` its own, so that `x`
keeps its place before later elements of equal score. -/
def insertDesc (x : ScoredResult) : List ScoredResult → List ScoredResult
  | [] => [x]
  | y :: ys =>
    if y.similarity_score ≤ x.similarity_score then x :: y :: ys
    else y :: insertDesc x ys

/-- Python's `list.sort(key=..., reverse=True)` is a stable descending sort;
a stable sort's output is uniquely determined by the key order and the input
order, so this insertion sort is an exact model of it. -/
def sortDesc : List ScoredResult → List ScoredResult
  | [] => []
  | x :: xs => insertDesc x (sortDesc xs)

/-- `MultilingualQASystem.search_answers` (lines 149–182): score every
knowledge-base item, sort by `similarity_score` descending (stable), and
return the first `top_k` entries (`results[:top_k]`). -/
def search_answers (knowledge_base : List Record) (query : String)
    (top_k : Nat := 3) : List ScoredResult :=
  (sortDesc (knowledge_base.map (scoreEntry query))).take top_k

/-- Python's `max(...)` over the ids of the knowledge-base items
(`add_to_knowledge_base`, line 227).  `max` of an empty sequence raises
`ValueError`, modelled as `none`. -/
def maxListId : List Record → Option Nat
  | [] => none
  | x :: xs =>
    match maxListId xs with
    | none => some x.id
    | some m => some (Nat.max x.id m)

/-- `MultilingualQASystem.add_to_knowledge_base` (lines 216–238): the new id is
`max(existing ids) + 1` and the new entry is appended at the end.  The Python
default argument `category='General'` is kept as a Lean default argument.
On an empty store the `max` raises, modelled as `none`. -/
def add_to_knowledge_base (knowledge_base : List Record)
    (language question answer : String) (category : String := "General") :
    Option (List Record) :=
  match maxListId knowledge_base with
  | none => none
  | some m =>
    some (knowledge_base ++
      [{ id := m + 1, language := language, question := question,
         answer := answer, category := category }])

/-- The statistics dict built by `get_statistics` (lines 240–262). -/
structure Stats where
  total_entries : Nat
  languages : List (String × Nat)
  categories : List (String × Nat)
deriving DecidableEq

/-- `stats[...][key] = stats[...].get(key, 0) + 1` on a Python dict, which
preserves insertion order: bump the count of `key`, appending it with count 1
when absent. -/
def bumpCount (counts : List (String × Nat)) (key : String) : List (String × Nat) :=
  match counts with
  | [] => [(key, 1)]
  | (k, v) :: rest =>
    if k = key then (k, v + 1) :: rest else (k, v) :: bumpCount rest key

/-- `MultilingualQASystem.get_statistics` (lines 240–262). -/
def get_statistics (knowledge_base : List Record) : Stats :=
  { total_entries := knowledge_base.length
    languages := knowledge_base.foldl (fun acc item => bumpCount acc item.language) []
    categories := knowledge_base.foldl (fun acc item => bumpCount acc item.category) [] }

/-- `MultilingualQASystem.load_knowledge_base` (lines 293–305).  The file
system is modelled as a map from filenames to the deserialized record sequence
of each existing file (`os.path.exists` + `json.load`).  The returned `Bool`
models the success/failure report printed to the caller: when the file exists
the whole store is replaced, otherwise the store is left unchanged. -/
def load_knowledge_base (fs : String → Option (List Record))
    (knowledge_base : List Record)
    (filename : String := "knowledge_base.json") : List Record × Bool :=
  match fs filename with
  | some loaded => (loaded, true)
  | none => (knowledge_base, false)

/-- Python's `str.strip()` over a character list: drop whitespace from both
ends. -/
def stripChars (cs : List Char) : List Char :=
  ((cs.dropWhile Char.isWhitespace).reverse.dropWhile Char.isWhitespace).reverse

/-- Python's `str.strip()`. -/
def pyStrip (s : String) : String :=
  String.mk (stripChars s.toList)

/-- The `add` branch of `interactive_mode` (lines 411–420): every prompt's
input is `.strip()`-ed, and a blank category falls back to `'General'`
before calling `add_to_knowledge_base`. -/
def console_add (knowledge_base : List Record)
    (langInput questionInput answerInput categoryInput : String) :
    Option (List Record) :=
  let lang := pyStrip langInput
  let question := pyStrip questionInput
  let answer := pyStrip answerInput
  let category0 := pyStrip categoryInput
  let category := if category0 = "" then "General" else category0
  add_to_knowledge_base knowledge_base lang question answer category

/-- `self.supported_languages` set in `MultilingualQASystem.__init__`. -/
def supported_languages : List String :=
  ["en", "es", "fr", "de", "hi", "zh", "ar", "ja"]

/-- The parsed JSON body of a POST to `/ask` in `web_interface.py`.  A JSON
key that is absent is `none`.  The body may carry a `top_k` key, but the
handler reads only `data.get('question', '')`. -/
structure AskRequest where
  question? : Option String
  top_k? : Option Nat
deriving DecidableEq

/-- The JSON response of the `/ask` handler, together with the HTTP status
code (Flask's default 200, or the explicit 400 of the error return). -/
structure AskResponse where
  status : Nat
  error? : Option String := none
  question? : Option String := none
  results : List ScoredResult := []
  message? : Option String := none
deriving DecidableEq

/-- `web_interface.ask_question` (lines 34–65), as a function from the global
`qa_system.knowledge_base` state and the request body to the (unchanged)
state and the response: strip the question, reject a blank one with a 400
error before any search, otherwise search with the hard-coded `top_k=5`,
keep only results with `similarity_score > 0`, and answer with the result
list and a count message. -/
def ask_question_route (knowledge_base : List Record) (req : AskRequest) :
    List Record × AskResponse :=
  let question := pyStrip (req.question?.getD "")
  if question = "" then
    (knowledge_base, { status := 400, error? := some "Please enter a question" })
  else
    let results := (search_answers knowledge_base question 5).filter
      (fun r => decide (0 < r.similarity_score))
    if results = [] then
      (knowledge_base,
        { status := 200, question? := some question, results := [],
          message? := some "No relevant answers found. Try a different question or add new knowledge to the system." })
    else
      (knowledge_base,
        { status := 200, question? := some question, results := results,
          message? := some ("Found " ++ toString results.length ++ " relevant answer(s)") })

/-- The parsed JSON body of a POST to `/add` in `web_interface.py`.  A JSON
key that is absent is `none`. -/
structure AddRequest where
  language? : Option String
  question? : Option String
  answer? : Option String
  category? : Option String
deriving DecidableEq

/-- The JSON response of the `/add` handler with its HTTP status code.  A 500
status models an unhandled exception escaping the handler. -/
structure AddResponse where
  status : Nat
  error? : Option String := none
  success : Bool := false
  message? : Option String := none
deriving DecidableEq

/-- `web_interface.add_knowledge` (lines 67–98), as a function from the global
knowledge-base state and the request body to the new state and the response:
strip all four fields (the category defaulting to `'General'` when the key is
absent), reject with 400 when language, question or answer is blank or when
the language is not in `supported_languages`, and otherwise append via
`add_to_knowledge_base`.  (The handler also saves the store to
`web_knowledge_base.json`; that side effect touches no state modelled here.)
On an empty store `add_to_knowledge_base` raises, modelled as a 500. -/
def add_knowledge_route (knowledge_base : List Record) (req : AddRequest) :
    List Record × AddResponse :=
  let language := pyStrip (req.language?.getD "")
  let question := pyStrip (req.question?.getD "")
  let answer := pyStrip (req.answer?.getD "")
  let category := pyStrip (req.category?.getD "General")
  if language = "" ∨ question = "" ∨ answer = "" then
    (knowledge_base,
      { status := 400, error? := some "All fields (language, question, answer) are required" })
  else if language ∉ supported_languages then
    (knowledge_base,
      { status := 400,
        error? := some ("Unsupported language. Supported: " ++
          String.intercalate ", " supported_languages) })
  else
    match add_to_knowledge_base knowledge_base language question answer category with
    | some kb2 =>
      (kb2, { status := 200, success := true, message? := some "Q&A pair added successfully!" })
    | none => (knowledge_base, { status := 500 })

/-- `MultilingualQASystem._create_sample_knowledge_base` (lines 41–120):
the ten seed records, ids 1 to 10, in order. -/
def sample_knowledge_base : List Record :=
  [{ id := 1, language := "en",
     question := "What is artificial intelligence?",
     answer := "Artificial Intelligence (AI) is the simulation of human intelligence processes by machines, especially computer systems. These processes include learning, reasoning, and self-correction.",
     category := "Technology" },
   { id := 2, language := "es",
     question := "¿Qué es el aprendizaje automático?",
     answer := "El aprendizaje automático es una rama de la inteligencia artificial que permite a las computadoras aprender y mejorar automáticamente a partir de la experiencia sin ser programadas explícitamente.",
     category := "Technology" },
   { id := 3, language := "fr",
     question := "Qu\x27est-ce que la science des données?",
     answer := "La science des données est un domaine interdisciplinaire qui utilise des méthodes, des processus, des algorithmes et des systèmes scientifiques pour extraire des connaissances et des idées à partir de données structurées et non structurées.",
     category := "Technology" },
   { id := 4, language := "en",
     question := "How does natural language processing work?",
     answer := "Natural Language Processing (NLP) works by combining computational linguistics with statistical, machine learning, and deep learning models. It enables computers to understand, interpret, and generate human language in a valuable way.",
     category := "Technology" },
   { id := 5, language := "de",
     question := "Was ist neuronales Netzwerk?",
     answer := "Ein neuronales Netzwerk ist ein Rechenmodell, das von der Struktur und Funktion des menschlichen Gehirns inspiriert ist. Es besteht aus verbundenen Knoten (Neuronen), die Informationen verarbeiten.",
     category := "Technology" },
   { id := 6, language := "hi",
     question := "डेटा विज्ञान क्या है?",
     answer := "डेटा विज्ञान एक अंतःविषय क्षेत्र है जो संरचित और असंरचित डेटा से ज्ञान और अंतर्दृष्टि निकालने के लिए वैज्ञानिक विधियों, प्रक्रियाओं और एल्गोरिदम का उपयोग करता है।",
     category := "Technology" },
   { id := 7, language := "en",
     question := "What are the benefits of machine learning?",
     answer := "Machine learning benefits include automation of tasks, improved accuracy, ability to handle large datasets, pattern recognition, predictive analytics, and continuous improvement over time without explicit programming.",
     category := "Technology" },
   { id := 8, language := "zh",
     question := "什么是深度学习?",
     answer := "深度学习是机器学习的一个子集，它使用多层神经网络来学习数据的复杂表示。深度学习在图像识别、语音识别和自然语言处理等领域取得了突破性进展。",
     category := "Technology" },
   { id := 9, language := "ar",
     question := "ما هو تعلم الآلة?",
     answer := "تعلم الآلة هو فرع من الذكاء الاصطناعي يمكّن أجهزة الكمبيوتر من التعلم والتحسين تلقائياً من التجربة دون أن يتم برمجتها صراحةً.",
     category := "Technology" },
   { id := 10, language := "ja",
     question := "人工知能とは何ですか？",
     answer := "人工知能（AI）は、機械、特にコンピュータシステムによる人間の知能プロセスのシミュレーションです。これらのプロセスには、学習、推論、自己修正が含まれます。",
     category := "Technology" }]

/-- A two-record store used as a concrete input in closed statements: both
records lexically match the query `"alpha"`. -/
def pair_store : List Record :=
  [{ id := 1, language := "en", question := "alpha", answer := "beta", category := "General" },
   { id := 2, language := "en", question := "alpha", answer := "gamma", category := "General" }]

/-- A concrete model file system for closed statements about
`load_knowledge_base`: only `"kb.json"` exists, holding one record. -/
def example_fs : String → Option (List Record) :=
  fun filename =>
    if filename = "kb.json" then
      some [{ id := 1, language := "en", question := "q", answer := "a", category := "General" }]
    else none

/-- A record whose texts have no tokens, used as a concrete input in closed
statements. -/
def blank_record : Record :=
  { id := 1, language := "en", question := "", answer := "", category := "General" }

/-- A one-record store whose texts have no tokens, used as a concrete input in
closed statements. -/
def blank_record_store : List Record :=
  [blank_record]

/-- A concrete `/ask` request carrying a caller-supplied `top_k` of 1. -/
def req_top_k_one : AskRequest :=
  { question? := some "alpha", top_k? := some 1 }

/-- A concrete `/add` request whose category is blank (whitespace only). -/
def req_blank_category : AddRequest :=
  { language? := some "en", question? := some "q1", answer? := some "a1",
    category? := some " " }

/-- A concrete `/add` request whose language `"xx"` is not in the
supported-language allow-list (the spec's scenario). -/
def req_bad_language : AddRequest :=
  { language? := some "xx", question? := some "q", answer? := some "a", category? := none }

/-- A concrete `/ask` request with no question key. -/
def req_no_question : AskRequest :=
  { question? := none, top_k? := none }

/-- A concrete valid `/add` request with no category key. -/
def req_no_category : AddRequest :=
  { language? := some "en", question? := some "q", answer? := some "a", category? := none }

end LaReQA

namespace LaReQA

/-! ### Properties of the stable descending sort -/

theorem mem_insertDesc {a x : ScoredResult} {l : List ScoredResult} :
    a ∈ insertDesc x l ↔ a = x ∨ a ∈ l := by
  induction l with
  | nil => simp [insertDesc]
  | cons y ys ih =>
    simp only [insertDesc]
    split
    · simp [List.mem_cons]
    · simp only [List.mem_cons, ih]
      tauto

theorem length_insertDesc (x : ScoredResult) (l : List ScoredResult) :
    (insertDesc x l).length = l.length + 1 := by
  induction l with
  | nil => rfl
  | cons y ys ih =>
    simp only [insertDesc]
    split
    · rfl
    · simp only [List.length_cons, ih]

theorem length_sortDesc (l : List ScoredResult) :
    (sortDesc l).length = l.length := by
  induction l with
  | nil => rfl
  | cons x xs ih => simp only [sortDesc, length_insertDesc, ih, List.length_cons]

theorem sorted_insertDesc {x : ScoredResult} {l : List ScoredResult}
    (h : l.Sorted (fun a b => b.similarity_score ≤ a.similarity_score)) :
    (insertDesc x l).Sorted (fun a b => b.similarity_score ≤ a.similarity_score) := by
  induction l with
  | nil => simp [insertDesc]
  | cons y ys ih =>
    rw [List.sorted_cons] at h
    simp only [insertDesc]
    split
    · rename_i hyx
      rw [List.sorted_cons]
      refine ⟨?_, ?_⟩
      · intro b hb
        rcases List.mem_cons.mp hb with rfl | hmem
        · exact hyx
        · exact (h.1 b hmem).trans hyx
      · rw [List.sorted_cons]
        exact h
    · rename_i hyx
      rw [List.sorted_cons]
      refine ⟨?_, ih h.2⟩
      intro b hb
      rcases mem_insertDesc.mp hb with rfl | hmem
      · exact le_of_not_le hyx
      · exact h.1 b hmem

theorem sorted_sortDesc (l : List ScoredResult) :
    (sortDesc l).Sorted (fun a b => b.similarity_score ≤ a.similarity_score) := by
  induction l with
  | nil => simp [sortDesc]
  | cons x xs ih => exact sorted_insertDesc ih

theorem filter_insertDesc_of_eq {x : ScoredResult} {s : ℚ}
    (hx : x.similarity_score = s) (l : List ScoredResult) :
    (insertDesc x l).filter (fun r => decide (r.similarity_score = s)) =
      x :: l.filter (fun r => decide (r.similarity_score = s)) := by
  induction l with
  | nil => simp [insertDesc, hx]
  | cons y ys ih =>
    simp only [insertDesc]
    split
    · simp [hx]
    · rename_i hyx
      have hy : ¬ (y.similarity_score = s) := by
        intro he
        exact hyx (le_of_eq (he.trans hx.symm))
      simp [List.filter_cons, hy, ih]

theorem filter_insertDesc_of_ne {x : ScoredResult} {s : ℚ}
    (hx : x.similarity_score ≠ s) (l : List ScoredResult) :
    (insertDesc x l).filter (fun r => decide (r.similarity_score = s)) =
      l.filter (fun r => decide (r.similarity_score = s)) := by
  induction l with
  | nil => simp [insertDesc, hx]
  | cons y ys ih =>
    simp only [insertDesc]
    split
    · simp [hx]
    · simp only [List.filter_cons, ih]

theorem filter_sortDesc (l : List ScoredResult) (s : ℚ) :
    (sortDesc l).filter (fun r => decide (r.similarity_score = s)) =
      l.filter (fun r => decide (r.similarity_score = s)) := by
  induction l with
  | nil => rfl
  | cons x xs ih =>
    simp only [sortDesc]
    by_cases hx : x.similarity_score = s
    · rw [filter_insertDesc_of_eq hx, ih, List.filter_cons, if_pos (by simp [hx])]
    · rw [filter_insertDesc_of_ne hx, ih, List.filter_cons, if_neg (by simp [hx])]

theorem mem_sortDesc {a : ScoredResult} {l : List ScoredResult} :
    a ∈ sortDesc l ↔ a ∈ l := by
  induction l with
  | nil => simp [sortDesc]
  | cons x xs ih =>
    simp only [sortDesc, mem_insertDesc, ih, List.mem_cons]

end LaReQA

namespace LaReQA

/-! ### Claims C1 – C4: the similarity scorer and the retrieval engine -/

/-- Claim C1: for every pair of strings, `simple_text_similarity` equals the
Jaccard similarity `|A ∩ B| / |A ∪ B|` of the sets of unique
whitespace-separated tokens of the lower-cased inputs, lies in `[0, 1]`, and
equals `0` when both token sets are empty (no arithmetic fault). -/
theorem similarity_is_jaccard (a b : String) :
    simple_text_similarity a b =
      ((wordSet a ∩ wordSet b).card : ℚ) / ((wordSet a ∪ wordSet b).card : ℚ) ∧
    0 ≤ simple_text_similarity a b ∧
    simple_text_similarity a b ≤ 1 ∧
    (wordSet a = ∅ → wordSet b = ∅ → simple_text_similarity a b = 0) := by
  have hcard : (wordSet a ∩ wordSet b).card ≤ (wordSet a ∪ wordSet b).card :=
    Finset.card_le_card (Finset.inter_subset_left.trans Finset.subset_union_left)
  by_cases h : (wordSet a ∪ wordSet b).card = 0
  · have h0 : simple_text_similarity a b = 0 := by
      simp only [simple_text_similarity]
      rw [if_pos h]
    have hi : (wordSet a ∩ wordSet b).card = 0 := Nat.le_zero.mp (h ▸ hcard)
    refine ⟨?_, ?_, ?_, fun _ _ => h0⟩
    · rw [h0, hi, h]
      norm_num
    · rw [h0]
    · rw [h0]
      norm_num
  · have hpos : 0 < ((wordSet a ∪ wordSet b).card : ℚ) := by
      exact_mod_cast Nat.pos_of_ne_zero h
    have hdiv : simple_text_similarity a b =
        ((wordSet a ∩ wordSet b).card : ℚ) / ((wordSet a ∪ wordSet b).card : ℚ) := by
      simp only [simple_text_similarity]
      rw [if_neg h, Rat.mkRat_eq_div]
      push_cast
      rfl
    refine ⟨hdiv, ?_, ?_, ?_⟩
    · rw [hdiv]
      positivity
    · rw [hdiv, div_le_one hpos]
      exact_mod_cast hcard
    · intro ha hb
      exact absurd (by simp [ha, hb]) h

/-- Witness for C1 at concrete input: both token sets of the empty string are
empty, and the score is `0`. -/
theorem similarity_is_jaccard_witness :
    wordSet "" = ∅ ∧ simple_text_similarity "" "" = 0 :=
  ⟨by decide, (similarity_is_jaccard "" "").2.2.2 (by decide) (by decide)⟩

/-- Claim C2: every result that `search_answers` returns carries as
`similarity_score` exactly the maximum of the query-to-question and
query-to-answer similarities of its record — not an average. -/
theorem search_score_is_max_of_fields (kb : List Record) (query : String)
    (k : Nat) (r : ScoredResult) (h : r ∈ search_answers kb query k) :
    r.similarity_score =
      max (simple_text_similarity query r.question)
          (simple_text_similarity query r.answer) := by
  unfold search_answers at h
  have h1 : r ∈ sortDesc (kb.map (scoreEntry query)) := List.take_subset _ _ h
  have h2 : r ∈ kb.map (scoreEntry query) := mem_sortDesc.mp h1
  obtain ⟨item, _, rfl⟩ := List.mem_map.mp h2
  rfl

/-- Witness for C2 at concrete input: the scored entry of the one record of
`blank_record_store` is in the search output, and its score is the max of the
two field scores. -/
theorem search_score_is_max_of_fields_witness :
    (scoreEntry "" blank_record) ∈ search_answers blank_record_store "" 3 ∧
    (scoreEntry "" blank_record).similarity_score =
      max (simple_text_similarity "" (scoreEntry "" blank_record).question)
          (simple_text_similarity "" (scoreEntry "" blank_record).answer) :=
  ⟨by decide, search_score_is_max_of_fields blank_record_store "" 3 _ (by decide)⟩

/-- Claim C3: the sequence returned by `search_answers` is sorted
non-increasing by `similarity_score`, and for every score value the results
carrying it appear in the same relative order as their records do in the
store (stable tie-break: the filtered output is a prefix of the store-order
scored list filtered to the same score). -/
theorem search_sorted_and_stable (kb : List Record) (query : String) (k : Nat) :
    (search_answers kb query k).Sorted
      (fun a b => b.similarity_score ≤ a.similarity_score) ∧
    ∀ s : ℚ,
      (search_answers kb query k).filter (fun r => decide (r.similarity_score = s)) <+:
        (kb.map (scoreEntry query)).filter (fun r => decide (r.similarity_score = s)) := by
  constructor
  · exact (sorted_sortDesc (kb.map (scoreEntry query))).sublist
      (List.take_sublist _ _)
  · intro s
    have h1 : search_answers kb query k <+: sortDesc (kb.map (scoreEntry query)) :=
      List.take_prefix _ _
    have h2 := h1.filter (fun r => decide (r.similarity_score = s))
    rwa [filter_sortDesc] at h2

/-- Claim C4: for every store, query and `k ≥ 0` (a natural number), the list
returned by `search_answers` has length exactly `min k (store size)`; in
particular an empty store yields an empty result and `k ≥ store size`
returns all records. -/
theorem search_length_is_min (kb : List Record) (query : String) (k : Nat) :
    (search_answers kb query k).length = min k kb.length := by
  unfold search_answers
  rw [List.length_take, length_sortDesc, List.length_map]

end LaReQA

namespace LaReQA

/-! ### Claim C5: id assignment in `add_to_knowledge_base` -/

theorem maxListId_spec (kb : List Record) (h : kb ≠ []) :
    ∃ m, maxListId kb = some m ∧ (∀ r ∈ kb, r.id ≤ m) ∧ ∃ r ∈ kb, r.id = m := by
  induction kb with
  | nil => exact absurd rfl h
  | cons x xs ih =>
    by_cases hxs : xs = []
    · subst hxs
      exact ⟨x.id, rfl, by simp, ⟨x, by simp⟩⟩
    · obtain ⟨m, hm, hb, r, hr, hrid⟩ := ih hxs
      refine ⟨Nat.max x.id m, by simp [maxListId, hm], ?_, ?_⟩
      · intro r' hr'
        rcases List.mem_cons.mp hr' with rfl | hmem
        · exact Nat.le_max_left _ _
        · exact (hb r' hmem).trans (Nat.le_max_right _ _)
      · rcases Nat.le_total x.id m with hle | hle
        · exact ⟨r, List.mem_cons_of_mem _ hr, hrid.trans (Nat.max_eq_right hle).symm⟩
        · exact ⟨x, List.mem_cons_self _ _, (Nat.max_eq_left hle).symm⟩

/-- Claim C5: on every non-empty store, `add_to_knowledge_base` assigns the
new record the id `max(existing ids) + 1` and appends it at the end of the
store; on an empty store the id computation fails (`max` of an empty
sequence, modelled as `none`), there being no explicit guard. -/
theorem add_assigns_max_id_plus_one_and_appends (kb : List Record)
    (l q a c : String) (h : kb ≠ []) :
    (∃ m, maxListId kb = some m ∧ (∀ r ∈ kb, r.id ≤ m) ∧ (∃ r ∈ kb, r.id = m) ∧
      add_to_knowledge_base kb l q a c =
        some (kb ++ [{ id := m + 1, language := l, question := q, answer := a,
                       category := c }])) ∧
    add_to_knowledge_base ([] : List Record) l q a c = none := by
  obtain ⟨m, hm, hb, hex⟩ := maxListId_spec kb h
  refine ⟨⟨m, hm, hb, hex, ?_⟩, rfl⟩
  simp only [add_to_knowledge_base, hm]

/-- Witness for C5 at concrete input: the source's ten-record sample store has
maximal id 10, so the appended record gets id 11; on the empty store the add
fails. -/
theorem add_assigns_max_id_plus_one_and_appends_witness :
    sample_knowledge_base ≠ [] ∧
    maxListId sample_knowledge_base = some 10 ∧
    ((∃ m, maxListId sample_knowledge_base = some m ∧
        (∀ r ∈ sample_knowledge_base, r.id ≤ m) ∧
        (∃ r ∈ sample_knowledge_base, r.id = m) ∧
        add_to_knowledge_base sample_knowledge_base "en" "What is computer vision?"
            "Computer vision is a field of AI." "Technology" =
          some (sample_knowledge_base ++
            [{ id := m + 1, language := "en", question := "What is computer vision?",
               answer := "Computer vision is a field of AI.",
               category := "Technology" }])) ∧
      add_to_knowledge_base ([] : List Record) "en" "What is computer vision?"
        "Computer vision is a field of AI." "Technology" = none) :=
  ⟨by decide, by decide,
    add_assigns_max_id_plus_one_and_appends sample_knowledge_base "en"
      "What is computer vision?" "Computer vision is a field of AI." "Technology"
      (by decide)⟩

/-! ### Claim C9: loading the knowledge base -/

/-- Claim C9: when the file does not exist, `load_knowledge_base` leaves the
in-memory store exactly as it was and reports the failure (not fatal); when
the file exists, it replaces the entire store with the deserialized
sequence. -/
theorem load_noop_on_missing_replaces_on_existing
    (fs : String → Option (List Record)) (kb : List Record) (filename : String) :
    (fs filename = none → load_knowledge_base fs kb filename = (kb, false)) ∧
    (∀ loaded, fs filename = some loaded →
      load_knowledge_base fs kb filename = (loaded, true)) := by
  constructor
  · intro h
    simp only [load_knowledge_base, h]
  · intro loaded h
    simp only [load_knowledge_base, h]

/-- Witness for C9 at concrete input: under `example_fs`, a missing file
leaves the sample store untouched with a failure report, and the existing
`"kb.json"` replaces it with the deserialized record. -/
theorem load_noop_on_missing_replaces_on_existing_witness :
    (example_fs "missing.json" = none ∧
      load_knowledge_base example_fs sample_knowledge_base "missing.json" =
        (sample_knowledge_base, false)) ∧
    (example_fs "kb.json" =
        some [{ id := 1, language := "en", question := "q", answer := "a",
                category := "General" }] ∧
      load_knowledge_base example_fs sample_knowledge_base "kb.json" =
        ([{ id := 1, language := "en", question := "q", answer := "a",
            category := "General" }], true)) :=
  ⟨⟨by decide,
    (load_noop_on_missing_replaces_on_existing example_fs sample_knowledge_base
      "missing.json").1 (by decide)⟩,
   ⟨by decide,
    (load_noop_on_missing_replaces_on_existing example_fs sample_knowledge_base
      "kb.json").2 _ (by decide)⟩⟩

/-! ### Claim C10: blank questions on the `/ask` endpoint -/

/-- Claim C10: for every request whose question is missing, empty, or
whitespace-only, the `/ask` handler returns the 400 error response without
performing a search (the response holds no results) and leaves the store
unchanged. -/
theorem blank_question_rejected (kb : List Record) (req : AskRequest)
    (h : pyStrip (req.question?.getD "") = "") :
    ask_question_route kb req =
      (kb, { status := 400, error? := some "Please enter a question" }) := by
  simp [ask_question_route, h]

/-- Witness for C10 at concrete input: a request with no question key at all
is rejected with the 400 error and the sample store is unchanged. -/
theorem blank_question_rejected_witness :
    pyStrip ((({ question? := none, top_k? := none } : AskRequest)).question?.getD "") = "" ∧
    ask_question_route sample_knowledge_base { question? := none, top_k? := none } =
      (sample_knowledge_base, { status := 400, error? := some "Please enter a question" }) :=
  ⟨by decide,
    blank_question_rejected sample_knowledge_base { question? := none, top_k? := none }
      (by decide)⟩

end LaReQA

namespace LaReQA

/-! ### Claim C6: validation on the `/add` endpoint -/

/-- Claim C6: every `/add` request in which language, question, or answer is
blank, or whose language is not in the supported-language allow-list, is
rejected with a 400 error response, is not marked successful, and leaves the
store unchanged — the statistics still report the original total. -/
theorem invalid_add_rejected (kb : List Record) (req : AddRequest)
    (h : pyStrip (req.language?.getD "") = "" ∨ pyStrip (req.question?.getD "") = "" ∨
         pyStrip (req.answer?.getD "") = "" ∨
         pyStrip (req.language?.getD "") ∉ supported_languages) :
    (add_knowledge_route kb req).1 = kb ∧
    (add_knowledge_route kb req).2.status = 400 ∧
    ((add_knowledge_route kb req).2.error?).isSome = true ∧
    (add_knowledge_route kb req).2.success = false ∧
    (get_statistics (add_knowledge_route kb req).1).total_entries =
      (get_statistics kb).total_entries := by
  by_cases h1 : pyStrip (req.language?.getD "") = "" ∨ pyStrip (req.question?.getD "") = "" ∨
      pyStrip (req.answer?.getD "") = ""
  · have heq : add_knowledge_route kb req =
        (kb, { status := 400,
               error? := some "All fields (language, question, answer) are required" }) := by
      simp only [add_knowledge_route]
      rw [if_pos h1]
    rw [heq]
    exact ⟨rfl, rfl, rfl, rfl, rfl⟩
  · have h2 : pyStrip (req.language?.getD "") ∉ supported_languages := by tauto
    have heq : add_knowledge_route kb req =
        (kb, { status := 400,
               error? := some ("Unsupported language. Supported: " ++
                 String.intercalate ", " supported_languages) }) := by
      simp only [add_knowledge_route]
      rw [if_neg h1, if_pos h2]
    rw [heq]
    exact ⟨rfl, rfl, rfl, rfl, rfl⟩

/-- Witness for C6 at concrete input: the spec scenario — an add request with
`language="xx"` outside the supported set against the ten-record sample
store is rejected and the store keeps its original total. -/
theorem invalid_add_rejected_witness :
    (pyStrip ((req_bad_language.language?).getD "") = "" ∨
     pyStrip ((req_bad_language.question?).getD "") = "" ∨
     pyStrip ((req_bad_language.answer?).getD "") = "" ∨
     pyStrip ((req_bad_language.language?).getD "") ∉ supported_languages) ∧
    ((add_knowledge_route sample_knowledge_base req_bad_language).1 =
       sample_knowledge_base ∧
     (add_knowledge_route sample_knowledge_base req_bad_language).2.status = 400 ∧
     ((add_knowledge_route sample_knowledge_base req_bad_language).2.error?).isSome = true ∧
     (add_knowledge_route sample_knowledge_base req_bad_language).2.success = false ∧
     (get_statistics (add_knowledge_route sample_knowledge_base
         req_bad_language).1).total_entries =
       (get_statistics sample_knowledge_base).total_entries) :=
  ⟨by decide, invalid_add_rejected sample_knowledge_base req_bad_language (by decide)⟩

/-! ### Claim C7: the `/ask` endpoint and `top_k` -/

/-- Claim C7 as stated is false on the code: the `/ask` handler never reads a
caller-supplied `top_k`.  For the request carrying `top_k = 1` over
`pair_store`, the returned results are not the ranking truncated to 1 —
both positive-score records come back. -/
theorem ask_ignores_caller_top_k_counterexample :
    (ask_question_route pair_store req_top_k_one).2.results ≠
      (search_answers pair_store "alpha" 1).filter
        (fun r => decide (0 < r.similarity_score)) := by decide

/-- Claim C7 (amended): for every non-blank query request, the `/ask` handler
ignores any caller-supplied `top_k` and uses the hard-coded `top_k = 5`: it
leaves the store unchanged and returns, with status 200, the ranked results
for the stripped question truncated to 5 and filtered to
`similarity_score > 0`, plus a human-readable count message (a "Found n
relevant answer(s)" message when results exist, a fixed no-answers message
otherwise). -/
theorem ask_uses_fixed_top_k_five (kb : List Record) (req : AskRequest)
    (h : pyStrip (req.question?.getD "") ≠ "") :
    (ask_question_route kb req).1 = kb ∧
    (ask_question_route kb req).2.status = 200 ∧
    (ask_question_route kb req).2.results =
      (search_answers kb (pyStrip (req.question?.getD "")) 5).filter
        (fun r => decide (0 < r.similarity_score)) ∧
    ((search_answers kb (pyStrip (req.question?.getD "")) 5).filter
        (fun r => decide (0 < r.similarity_score)) ≠ [] →
      (ask_question_route kb req).2.message? =
        some ("Found " ++
          toString ((search_answers kb (pyStrip (req.question?.getD "")) 5).filter
            (fun r => decide (0 < r.similarity_score))).length ++
          " relevant answer(s)")) ∧
    ((search_answers kb (pyStrip (req.question?.getD "")) 5).filter
        (fun r => decide (0 < r.similarity_score)) = [] →
      (ask_question_route kb req).2.message? =
        some "No relevant answers found. Try a different question or add new knowledge to the system.") := by
  by_cases hres : (search_answers kb (pyStrip (req.question?.getD "")) 5).filter
      (fun r => decide (0 < r.similarity_score)) = []
  · have heq : ask_question_route kb req =
        (kb, { status := 200, question? := some (pyStrip (req.question?.getD "")),
               results := [],
               message? := some "No relevant answers found. Try a different question or add new knowledge to the system." }) := by
      simp only [ask_question_route]
      rw [if_neg h, if_pos hres]
    rw [heq]
    exact ⟨rfl, rfl, hres.symm, fun hne => absurd hres hne, fun _ => rfl⟩
  · have heq : ask_question_route kb req =
        (kb, { status := 200, question? := some (pyStrip (req.question?.getD "")),
               results := (search_answers kb (pyStrip (req.question?.getD "")) 5).filter
                 (fun r => decide (0 < r.similarity_score)),
               message? := some ("Found " ++
                 toString ((search_answers kb (pyStrip (req.question?.getD "")) 5).filter
                   (fun r => decide (0 < r.similarity_score))).length ++
                 " relevant answer(s)") }) := by
      simp only [ask_question_route]
      rw [if_neg h, if_neg hres]
    rw [heq]
    exact ⟨rfl, rfl, rfl, fun _ => rfl, fun hemp => absurd hemp hres⟩

/-- Witness for the amended C7 at concrete input: the non-blank request
carrying `top_k = 1` over `pair_store` gets the fixed-`top_k`-5 treatment. -/
theorem ask_uses_fixed_top_k_five_witness :
    pyStrip ((req_top_k_one.question?).getD "") ≠ "" ∧
    ((ask_question_route pair_store req_top_k_one).1 = pair_store ∧
     (ask_question_route pair_store req_top_k_one).2.status = 200 ∧
     (ask_question_route pair_store req_top_k_one).2.results =
       (search_answers pair_store (pyStrip ((req_top_k_one.question?).getD "")) 5).filter
         (fun r => decide (0 < r.similarity_score)) ∧
     ((search_answers pair_store (pyStrip ((req_top_k_one.question?).getD "")) 5).filter
         (fun r => decide (0 < r.similarity_score)) ≠ [] →
       (ask_question_route pair_store req_top_k_one).2.message? =
         some ("Found " ++
           toString ((search_answers pair_store
             (pyStrip ((req_top_k_one.question?).getD "")) 5).filter
               (fun r => decide (0 < r.similarity_score))).length ++
           " relevant answer(s)")) ∧
     ((search_answers pair_store (pyStrip ((req_top_k_one.question?).getD "")) 5).filter
         (fun r => decide (0 < r.similarity_score)) = [] →
       (ask_question_route pair_store req_top_k_one).2.message? =
         some "No relevant answers found. Try a different question or add new knowledge to the system.")) :=
  ⟨by decide, ask_uses_fixed_top_k_five pair_store req_top_k_one (by decide)⟩

end LaReQA

namespace LaReQA

/-! ### Claim C8: the "General" category default -/

theorem add_getLast_category (kb : List Record) (l q a c : String) (h : kb ≠ []) :
    ∃ kb2, add_to_knowledge_base kb l q a c = some kb2 ∧
      kb2.getLast?.map Record.category = some c := by
  obtain ⟨m, hm, -, -⟩ := maxListId_spec kb h
  refine ⟨kb ++ [{ id := m + 1, language := l, question := q, answer := a, category := c }], ?_, ?_⟩
  · simp only [add_to_knowledge_base, hm]
  · rw [List.getLast?_concat]
    rfl

/-- Claim C8 fails on the code: on the service add path a blank (whitespace
only) category is stripped to the empty string and stored as such — not
replaced by "General". -/
theorem blank_category_not_general_counterexample :
    ((add_knowledge_route pair_store req_blank_category).1.getLast?).map
        Record.category = some "" ∧
    ((add_knowledge_route pair_store req_blank_category).1.getLast?).map
        Record.category ≠ some "General" :=
  ⟨by decide, by decide⟩

/-- Claim C8 (amended): when the category is absent, every add path stores
the sentinel "General": the core `add_to_knowledge_base` through its default
argument, and the service `/add` endpoint through its request default.  When
the category is blank (empty after trimming), only the console add path
substitutes "General"; the core stores the category value it is given
verbatim, and the service endpoint stores the trimmed category — the empty
string. -/
theorem category_general_only_when_absent :
    (∀ (kb : List Record) (l q a : String), kb ≠ [] →
      ∃ kb2, add_to_knowledge_base kb l q a = some kb2 ∧
        kb2.getLast?.map Record.category = some "General") ∧
    (∀ (kb : List Record) (l q a c : String), kb ≠ [] →
      ∃ kb2, add_to_knowledge_base kb l q a c = some kb2 ∧
        kb2.getLast?.map Record.category = some c) ∧
    (∀ (kb : List Record) (l q a cat : String), kb ≠ [] → pyStrip cat = "" →
      ∃ kb2, console_add kb l q a cat = some kb2 ∧
        kb2.getLast?.map Record.category = some "General") ∧
    (∀ (kb : List Record) (req : AddRequest), kb ≠ [] →
      pyStrip (req.language?.getD "") ≠ "" →
      pyStrip (req.question?.getD "") ≠ "" →
      pyStrip (req.answer?.getD "") ≠ "" →
      pyStrip (req.language?.getD "") ∈ supported_languages →
      (((add_knowledge_route kb req).1.getLast?).map Record.category =
         some (pyStrip (req.category?.getD "General")) ∧
       (req.category? = none →
         ((add_knowledge_route kb req).1.getLast?).map Record.category =
           some "General"))) := by
  refine ⟨?_, ?_, ?_, ?_⟩
  · intro kb l q a hkb
    exact add_getLast_category kb l q a "General" hkb
  · intro kb l q a c hkb
    exact add_getLast_category kb l q a c hkb
  · intro kb l q a cat hkb hcat
    have hca : console_add kb l q a cat =
        add_to_knowledge_base kb (pyStrip l) (pyStrip q) (pyStrip a) "General" := by
      simp [console_add, hcat]
    rw [hca]
    exact add_getLast_category kb _ _ _ "General" hkb
  · intro kb req hkb hl hq ha hsup
    have hcond : ¬ (pyStrip (req.language?.getD "") = "" ∨
        pyStrip (req.question?.getD "") = "" ∨ pyStrip (req.answer?.getD "") = "") := by
      tauto
    obtain ⟨m, hm, -, -⟩ := maxListId_spec kb hkb
    have heq : add_knowledge_route kb req =
        (kb ++ [{ id := m + 1, language := pyStrip (req.language?.getD ""),
                  question := pyStrip (req.question?.getD ""),
                  answer := pyStrip (req.answer?.getD ""),
                  category := pyStrip (req.category?.getD "General") }],
         { status := 200, success := true,
           message? := some "Q&A pair added successfully!" }) := by
      simp only [add_knowledge_route]
      rw [if_neg hcond, if_neg (not_not_intro hsup)]
      simp only [add_to_knowledge_base, hm]
    constructor
    · rw [heq]
      simp only [List.getLast?_concat]
      rfl
    · intro hnone
      rw [heq, hnone]
      simp only [List.getLast?_concat, Option.map_some', Option.getD_none]
      decide

/-- Witness for the amended C8 at concrete inputs: category-absent adds store
"General" on the core and service paths, the console substitutes "General"
for a blank category, the core stores an explicit category verbatim, and the
service stores the trimmed category of a category-carrying request. -/
theorem category_general_only_when_absent_witness :
    pair_store ≠ [] ∧ pyStrip " " = "" ∧
    (∃ kb2, add_to_knowledge_base pair_store "en" "q" "a" = some kb2 ∧
      kb2.getLast?.map Record.category = some "General") ∧
    (∃ kb2, add_to_knowledge_base pair_store "en" "q" "a" "Tech" = some kb2 ∧
      kb2.getLast?.map Record.category = some "Tech") ∧
    (∃ kb2, console_add pair_store "en" "q" "a" " " = some kb2 ∧
      kb2.getLast?.map Record.category = some "General") ∧
    (((add_knowledge_route pair_store req_no_category).1.getLast?).map Record.category =
       some (pyStrip ((req_no_category.category?).getD "General")) ∧
     (req_no_category.category? = none →
       ((add_knowledge_route pair_store req_no_category).1.getLast?).map Record.category =
         some "General")) :=
  ⟨by decide, by decide,
   category_general_only_when_absent.1 pair_store "en" "q" "a" (by decide),
   category_general_only_when_absent.2.1 pair_store "en" "q" "a" "Tech" (by decide),
   category_general_only_when_absent.2.2.1 pair_store "en" "q" "a" " " (by decide) (by decide),
   category_general_only_when_absent.2.2.2 pair_store req_no_category (by decide)
     (by decide) (by decide) (by decide) (by decide)⟩

end LaReQA
